import Mathlib

/-
Verification of the domain-request lifecycle engine of the registrar
repository: the status state machine on `DomainRequest`
(src/registrar/models/domain_request.py), the organization-type
reconciliation (src/registrar/signals.py), and the completeness
evaluator (`_form_complete` and its helper predicates).

The Python code is shallowly embedded: model fields become structure
fields (nullable fields become `Option`), dates become `Nat`, database
and registry effects become explicit environment parameters, and an
exception becomes an error value carried next to the (possibly already
mutated) in-memory state.
-/

namespace Registrar

/-- The eight lifecycle statuses of `DomainRequest.DomainRequestStatus`. -/
inductive Status where
  | started
  | submitted
  | inReview
  | actionNeeded
  | approved
  | rejected
  | ineligible
  | withdrawn
deriving DecidableEq, Repr

/-- Modelled from the spec: the registry state of a `Domain`
(registrar/models/domain.py is not under src/). `delete_and_clean_up_domain`
only consults whether the state is `unknown` ("it exists in the external
registry" when not), and the `domain_is_not_active` guard asks whether the
domain is live. -/
inductive DomainState where
  | unknown
  | dnsNeeded
  | ready
  | onHold
  | deleted
deriving DecidableEq, Repr

/-- A `Domain` record, as read by the engine: its name and registry state. -/
structure Domain where
  name : String
  state : DomainState
deriving DecidableEq, Repr

/-- Modelled from the spec: `Domain.is_active` (registrar/models/domain.py is
not under src/). A domain is active when it is live in the registry; the
guard in §4.1 requires the approved domain to be "inactive or absent". -/
def Domain.is_active (d : Domain) : Bool :=
  d.state = DomainState.ready

/-- The slice of a `User` the engine reads: the contact email used by
notifications, the staff flag consulted by transition guards, and the
restriction flag set by `reject_with_prejudice` via `restrict_user`. -/
structure User where
  email : Option String
  is_staff : Bool
  restricted : Bool
deriving DecidableEq, Repr

/-- The slice of a `Contact` read by the completeness evaluator. -/
structure Contact where
  first_name : Option String
  last_name : Option String
  title : Option String
  email : Option String
  phone : Option String
deriving DecidableEq, Repr

/-- The fields of `DomainRequest` read or written by the workflow engine,
plus the per-instance cache set in `__init__` by
`_cache_status_and_status_reasons` and refreshed at the end of `save`.
Nullable model fields are `Option`; `requested_domain` carries the draft
domain name (the only attribute of `DraftDomain` the engine reads);
`federal_agency` carries the agency name. -/
structure DomainRequest where
  status : Status
  rejection_reason : Option String
  rejection_reason_email : Option String
  action_needed_reason : Option String
  action_needed_reason_email : Option String
  federal_agency : Option String
  creator : User
  investigator : Option User
  generic_org_type : Option String
  is_election_board : Option Bool
  organization_type : Option String
  tribe_name : Option String
  federal_type : Option String
  organization_name : Option String
  address_line1 : Option String
  address_line2 : Option String
  city : Option String
  state_territory : Option String
  zipcode : Option String
  about_your_organization : Option String
  senior_official : Option Contact
  approved_domain : Option Domain
  requested_domain : Option String
  purpose : Option String
  other_contacts : List Contact
  no_other_contacts_rationale : Option String
  anything_else : Option String
  has_anything_else_text : Option Bool
  cisa_representative_email : Option String
  cisa_representative_first_name : Option String
  cisa_representative_last_name : Option String
  has_cisa_representative : Option Bool
  is_policy_acknowledged : Option Bool
  first_submitted_date : Option Nat
  last_submitted_date : Option Nat
  last_status_update : Option Nat
  _cached_status : Status
  _cached_action_needed_reason : Option String
  _cached_rejection_reason : Option String
deriving DecidableEq, Repr

/-- Python truthiness of an optional string: `None` and the empty string are
falsy, every other string is truthy. -/
def truthyStr : Option String → Bool
  | none => false
  | some s => s ≠ ""

/-- Python truthiness of an optional boolean: only `True` is truthy. -/
def truthyBool : Option Bool → Bool
  | none => false
  | some b => b

/-- Python `str(x)` on an optional string: `str(None)` is the literal string
`"None"`. -/
def pyStr : Option String → String
  | none => "None"
  | some s => s

/-- Python `x != ""` on an optional string: `None != ""` is `True`. -/
def pyNeqEmpty : Option String → Bool
  | none => true
  | some s => s ≠ ""

/-- Python `x != "" and x is not None`: the string is present and non-empty. -/
def filledStr : Option String → Bool
  | none => false
  | some s => s ≠ ""

/-- Python substring containment over character lists, structural on the
haystack: `needle in hay`. -/
def containsSub (needle : List Char) : List Char → Bool
  | [] => needle.isEmpty
  | c :: t => List.isPrefixOf needle (c :: t) || containsSub needle t

/-- Python `needle in hay` on strings. -/
def pyIn (needle hay : String) : Bool :=
  containsSub needle.toList hay.toList

/-- `OrgChoicesElectionOffice.get_org_generic_to_org_election`: the map from a
generic organization type to its election variant, defined for exactly the
five types that have one. -/
def get_org_generic_to_org_election : List (String × String) :=
  [("state_or_territory", "state_or_territory_election"),
   ("tribal", "tribal_election"),
   ("county", "county_election"),
   ("city", "city_election"),
   ("special_district", "special_district_election")]

/-- `OrgChoicesElectionOffice.get_org_election_to_org_generic`: the inverse
map, from an election variant back to its generic organization type. -/
def get_org_election_to_org_generic : List (String × String) :=
  [("state_or_territory_election", "state_or_territory"),
   ("tribal_election", "tribal"),
   ("county_election", "county"),
   ("city_election", "city"),
   ("special_district_election", "special_district")]

/-- The thirteen values of `OrgChoicesElectionOffice`: the eight generic
organization types and the five election variants. -/
def orgChoicesElectionOffice : List String :=
  ["federal", "interstate", "state_or_territory", "tribal", "county",
   "city", "special_district", "school_district",
   "state_or_territory_election", "tribal_election", "county_election",
   "city_election", "special_district_election"]

/-- The five election-variant codes. -/
def electionVariantCodes : List String :=
  ["state_or_territory_election", "tribal_election", "county_election",
   "city_election", "special_district_election"]

/-- `signals._update_org_type_from_generic_org_and_election`: recompute
`organization_type` from `generic_org_type` and `is_election_board` via the
generic-to-election map, falling back to the plain generic value. As in the
source, the generic value goes through `str(...)` first. -/
def _update_org_type_from_generic_org_and_election (inst : DomainRequest) :
    DomainRequest :=
  let generic_org_type := pyStr inst.generic_org_type
  match get_org_generic_to_org_election.lookup generic_org_type with
  | some election_variant =>
      if truthyBool inst.is_election_board then
        { inst with organization_type := some election_variant }
      else
        { inst with organization_type := some generic_org_type }
  | none => { inst with organization_type := some generic_org_type }

/-- `signals._update_generic_org_and_election_from_org_type`: recompute
`generic_org_type` and `is_election_board` from `organization_type` via the
election-to-generic map; a key in that map means an election variant. -/
def _update_generic_org_and_election_from_org_type (inst : DomainRequest) :
    DomainRequest :=
  let current_org_type := pyStr inst.organization_type
  match get_org_election_to_org_generic.lookup current_org_type with
  | some new_org =>
      { inst with generic_org_type := some new_org,
                      is_election_board := some true }
  | none =>
      { inst with generic_org_type := some current_org_type,
                      is_election_board := some false }

/-- In the source, the new-record validity check reads
`"_election" in organization_type != inst.is_election_board`, which
Python parses as the chained comparison
`("_election" in organization_type) and (organization_type != is_election_board)`;
a `str` is never equal to a `bool` or to `None`, so the second comparand is
always true. -/
def str_neq_election_board (_organization_type : String)
    (_is_election_board : Option Bool) : Bool :=
  true

/-- `signals.create_or_update_organization_type`, the `pre_save` receiver for
`DomainRequest` (and `DomainInformation`). `is_new` models
`inst.id is None`; `current` models the database row fetched by
`DomainRequest.objects.get(id=inst.id)` for an existing record (unused on
the new-record branch). A raised `ValueError` becomes `Except.error` with the
message. -/
def create_or_update_organization_type (is_new : Bool)
    (current inst : DomainRequest) : Except String DomainRequest :=
  if is_new then
    if truthyStr inst.organization_type &&
        truthyStr inst.generic_org_type then
      let organization_type := pyStr inst.organization_type
      let generic_org_type := pyStr inst.generic_org_type
      if (pyIn "_election" organization_type &&
            str_neq_election_board organization_type inst.is_election_board)
          || organization_type ≠ generic_org_type then
        Except.error
          ("Cannot add organization_type and generic_org_type simultaneously "
            ++ "when generic_org_type, is_election_board, and organization_type "
            ++ "values do not match.")
      else
        -- both fields hold data, so neither needs-update flag is set: pass
        Except.ok inst
    else if !truthyStr inst.organization_type &&
        !truthyStr inst.generic_org_type then
      -- no values to update - do nothing
      Except.ok inst
    else if inst.organization_type = none then
      Except.ok (_update_org_type_from_generic_org_and_election inst)
    else if inst.generic_org_type = none then
      Except.ok (_update_generic_org_and_election_from_org_type inst)
    else
      Except.ok inst
  else
    let generic_org_type_changed :=
      inst.generic_org_type ≠ current.generic_org_type
    let is_election_board_changed :=
      inst.is_election_board ≠ current.is_election_board
    let organization_type_changed :=
      inst.organization_type ≠ current.organization_type
    if organization_type_changed ∧
        (generic_org_type_changed ∨ is_election_board_changed) then
      Except.error
        "Cannot update organization_type and generic_org_type simultaneously."
    else if ¬organization_type_changed ∧
        (¬generic_org_type_changed ∧ ¬is_election_board_changed) then
      -- no values to update - do nothing
      Except.ok inst
    else if generic_org_type_changed ∨ is_election_board_changed then
      Except.ok (_update_org_type_from_generic_org_and_election inst)
    else if organization_type_changed then
      Except.ok (_update_generic_org_and_election_from_org_type inst)
    else
      Except.ok inst

/-- The forward reconciliation of §4.2: the organization type derived from a
generic type and election flag, falling back to the plain generic value when
no election variant exists or the flag is not true. -/
def forwardOrgType (generic : String) (is_election_board : Option Bool) :
    String :=
  match get_org_generic_to_org_election.lookup generic with
  | some election_variant =>
      if truthyBool is_election_board then election_variant else generic
  | none => generic

/-- Modelled from the spec: `DomainRequest.sync_organization_type` delegates to
`CreateOrUpdateOrganizationTypeHelper.create_or_update_organization_type`
(registrar/models/utility/generic_helper.py, which is not under src/).
Per §4.2: on a new record, when both `organization_type` and
`generic_org_type` are supplied they must agree (the organization type equals
the forward-reconciled value of the generic/election pair) or the save is
rejected; when only one side is supplied the other is derived; when neither
is supplied nothing happens. On an existing record, changing
`organization_type` together with the generic/election pair is rejected,
changing only one side recomputes the other, and no change is a no-op. -/
def sync_organization_type (is_new : Bool)
    (current inst : DomainRequest) : Except String DomainRequest :=
  if is_new then
    match inst.organization_type, inst.generic_org_type with
    | some organization_type, some generic =>
        if organization_type = forwardOrgType generic inst.is_election_board
        then Except.ok inst
        else Except.error "organization_type reconciliation mismatch"
    | some _, none =>
        Except.ok (_update_generic_org_and_election_from_org_type inst)
    | none, some _ =>
        Except.ok (_update_org_type_from_generic_org_and_election inst)
    | none, none => Except.ok inst
  else
    let generic_changed := inst.generic_org_type ≠ current.generic_org_type
    let election_changed := inst.is_election_board ≠ current.is_election_board
    let org_type_changed := inst.organization_type ≠ current.organization_type
    if org_type_changed ∧ (generic_changed ∨ election_changed) then
      Except.error "organization_type reconciliation ambiguity"
    else if generic_changed ∨ election_changed then
      Except.ok (_update_org_type_from_generic_org_and_election inst)
    else if org_type_changed then
      Except.ok (_update_generic_org_and_election_from_org_type inst)
    else
      Except.ok inst

/-- The notifications the engine can request, identified by their template;
a custom status email carries the status, the reason that triggered it and
the explanatory body text. -/
inductive Email where
  | submissionConfirmation
  | approvalConfirmation
  | withdrawalConfirmation
  | customStatus (status : Status) (reason : String) (body : String)
deriving DecidableEq, Repr

/-- `DomainRequest._send_status_update_email`: the notification only reaches
the dispatcher when the creator has an email address and `send_email` is set;
otherwise the call logs and returns without sending. Transport failures are
caught and logged, so a dispatched email is modelled as sent. -/
def _send_status_update_email (r : DomainRequest) (send_email : Bool)
    (e : Email) : List Email :=
  match r.creator.email with
  | none => []
  | some _ => if send_email then [e] else []

/-- `DomainRequest.send_custom_status_update_email`: compare the post-save
reason for the given status against the cached pre-save value and dispatch a
custom status email when (a) an explanatory email body is present, (b) the
reason is non-null and not excluded for the status (`ACTION_NEEDED` excludes
`OTHER`, `REJECTED` excludes nothing), and (c) the reason differs from the
cached value or the cached value is null. Only called from `save` for the
`ACTION_NEEDED` and `REJECTED` statuses. -/
def send_custom_status_update_email (r : DomainRequest) (status : Status) :
    List Email :=
  let info : Option (Option String × Option String × Option String ×
      List String) :=
    if status = Status.actionNeeded then
      some (r._cached_action_needed_reason, r.action_needed_reason,
            r.action_needed_reason_email, ["other"])
    else if status = Status.rejected then
      some (r._cached_rejection_reason, r.rejection_reason,
            r.rejection_reason_email, [])
    else none
  match info with
  | none => []
  | some (cached_reason, reason, email, excluded_reasons) =>
    match email with
    | none => []
    | some body =>
      match reason with
      | none => []
      | some rsn =>
        if rsn ∈ excluded_reasons then []
        else if cached_reason ≠ some rsn ∨ cached_reason = none then
          _send_status_update_email r true (Email.customStatus status rsn body)
        else []

/-- First statement of `sync_yes_no_form_fields`: when either CISA
representative name holds data, set `has_cisa_representative`; note that in
Python `None != ""` is `True`. -/
def syncCisaStep1 (r : DomainRequest) : DomainRequest :=
  if r.cisa_representative_first_name ≠ none ∨
      r.cisa_representative_last_name ≠ none then
    let flag := pyNeqEmpty r.cisa_representative_first_name &&
      pyNeqEmpty r.cisa_representative_last_name
    { r with has_cisa_representative := some flag }
  else r

/-- Second statement of `sync_yes_no_form_fields`: when the flag is not null,
recompute it as both names being present and non-empty. -/
def syncCisaStep2 (r : DomainRequest) : DomainRequest :=
  if r.has_cisa_representative ≠ none then
    let flag := filledStr r.cisa_representative_first_name &&
      filledStr r.cisa_representative_last_name
    { r with has_cisa_representative := some flag }
  else r

/-- Third statement of `sync_yes_no_form_fields`: when `anything_else` holds
data, set `has_anything_else_text`. -/
def syncAnythingStep1 (r : DomainRequest) : DomainRequest :=
  if r.anything_else ≠ none then
    { r with has_anything_else_text := some (pyNeqEmpty r.anything_else) }
  else r

/-- Fourth statement of `sync_yes_no_form_fields`: when the flag is not null,
recompute it as `anything_else` being present and non-empty. -/
def syncAnythingStep2 (r : DomainRequest) : DomainRequest :=
  if r.has_anything_else_text ≠ none then
    { r with has_anything_else_text := some (filledStr r.anything_else) }
  else r

/-- `DomainRequest.sync_yes_no_form_fields`: the four statements in source
order. -/
def sync_yes_no_form_fields (r : DomainRequest) : DomainRequest :=
  syncAnythingStep2 (syncAnythingStep1 (syncCisaStep2 (syncCisaStep1 r)))

/-- `DomainRequest._cache_status_and_status_reasons`: refresh the cached
status and reason values from the live fields. -/
def _cache_status_and_status_reasons (r : DomainRequest) : DomainRequest :=
  { r with _cached_action_needed_reason := r.action_needed_reason,
           _cached_rejection_reason := r.rejection_reason,
           _cached_status := r.status }

/-- The timestamp statement of `save`: stamp `last_status_update` with today
when the status differs from the cached pre-save status. -/
def stampStatusUpdate (today : Nat) (r : DomainRequest) : DomainRequest :=
  if r._cached_status ≠ r.status then
    { r with last_status_update := some today }
  else r

/-- `DomainRequest.save`: run `sync_organization_type` (the helper), then
`sync_yes_no_form_fields`, stamp `last_status_update` when the status differs
from the cached one, run the `pre_save` receiver
`signals.create_or_update_organization_type` (fired inside `super().save()`),
dispatch the custom status email when the status is `ACTION_NEEDED` or
`REJECTED`, and refresh the cache. `current` is the database row for this
(existing) record; a `ValueError` from either reconciliation step aborts the
save with its message. -/
def save (current : DomainRequest) (today : Nat) (r : DomainRequest) :
    Except String (DomainRequest × List Email) := do
  let r ← sync_organization_type false current r
  let r := sync_yes_no_form_fields r
  let r := stampStatusUpdate today r
  let r ← create_or_update_organization_type false current r
  let emails :=
    if r.status = Status.actionNeeded ∨ r.status = Status.rejected then
      send_custom_status_update_email r r.status
    else []
  return (_cache_status_and_status_reasons r, emails)

/-- The environment a transition runs in: the database query
`Domain.objects.filter(name=...).exists()`, the syntactic domain-name
validity check (`DraftDomain.string_could_be_domain` is not under src/, so it
is modelled from the spec as an abstract predicate for "is a syntactically
valid domain name"), whether the registry deletion performed by
`delete_and_clean_up_domain` raises, and the current date. -/
structure Env where
  domain_exists : String → Bool
  string_could_be_domain : String → Bool
  epp_delete_raises : Bool
  today : Nat

/-- The errors a transition can signal: `django_fsm.TransitionNotAllowed`
(illegal source status or a failed `conditions` guard), the
`FSMDomainRequestError` with code `APPROVE_DOMAIN_IN_USE`, a `ValueError`
raised inside `submit`, and a `ValueError` raised by the organization-type
reconciliation during a save. -/
inductive WorkflowError where
  | transitionNotAllowed
  | approveDomainInUse
  | valueError (msg : String)
  | reconciliationError (msg : String)
deriving DecidableEq, Repr

/-- The outcome of invoking a transition method: the in-memory request
afterwards (mutations made before an exception are kept, as in Python), the
notifications dispatched, and the error signalled if any; `err = none` means
the transition succeeded and `django_fsm` moved `status` to the target. -/
structure TRes where
  state : DomainRequest
  emails : List Email
  err : Option WorkflowError
deriving DecidableEq, Repr

/-- `DomainRequest.domain_is_not_active`: true when there is no approved
domain or the approved domain is not active. -/
def domain_is_not_active (r : DomainRequest) : Bool :=
  match r.approved_domain with
  | some d => !d.is_active
  | none => true

/-- `DomainRequest.investigator_exists_and_is_staff`: an investigator is
assigned and is staff. -/
def investigator_exists_and_is_staff (r : DomainRequest) : Bool :=
  match r.investigator with
  | none => false
  | some u => u.is_staff

/-- `DomainRequest.delete_and_clean_up_domain`: read the approved domain's
registry state; when it is not `UNKNOWN`, delete it in the registry first
(this external call may raise); then delete the local record and null out
`approved_domain`. The whole body is wrapped in try/except, so any raise is
logged and swallowed, leaving `approved_domain` as it was. A missing
approved domain raises on the attribute access and is likewise swallowed. -/
def delete_and_clean_up_domain (env : Env) (r : DomainRequest) :
    DomainRequest :=
  match r.approved_domain with
  | none => r
  | some d =>
    if d.state ≠ DomainState.unknown then
      if env.epp_delete_raises then r
      else { r with approved_domain := none }
    else { r with approved_domain := none }

/-- The legal source statuses of `submit`. -/
def submitSources : List Status :=
  [Status.started, Status.inReview, Status.actionNeeded, Status.withdrawn]

/-- The date statements of `submit`: set `first_submitted_date` when it is
unset (this must be the first submission) and always set
`last_submitted_date` to today. -/
def submitDates (today : Nat) (r : DomainRequest) : DomainRequest :=
  let r1 := if r.first_submitted_date = none then
      { r with first_submitted_date := some today }
    else r
  { r1 with last_submitted_date := some today }

/-- `DomainRequest.submit`: legal from Started, InReview, ActionNeeded and
Withdrawn; requires a requested domain whose name could be a domain; sets
`first_submitted_date` when unset and always sets `last_submitted_date`
(`submitDates`), saves, and sends the submission-confirmation notification
when the source status (still the current value of `status` at that point)
is Started or Withdrawn; `django_fsm` then moves the status to Submitted. -/
def submit (env : Env) (r : DomainRequest) : TRes :=
  if r.status ∉ submitSources then
    ⟨r, [], some WorkflowError.transitionNotAllowed⟩
  else
    match r.requested_domain with
    | none => ⟨r, [], some (WorkflowError.valueError
        "Requested domain is missing.")⟩
    | some name =>
      if !env.string_could_be_domain name then
        ⟨r, [], some (WorkflowError.valueError
          "Requested domain is not a valid domain name.")⟩
      else
        let r2 := submitDates env.today r
        match save r env.today r2 with
        | Except.error m =>
            ⟨r2, [], some (WorkflowError.reconciliationError m)⟩
        | Except.ok (r3, savedEmails) =>
          let confirmation :=
            if r3.status = Status.started ∨ r3.status = Status.withdrawn then
              _send_status_update_email r3 true Email.submissionConfirmation
            else []
          ⟨{ r3 with status := Status.submitted },
            savedEmails ++ confirmation, none⟩

/-- The legal source statuses of `in_review`. -/
def inReviewSources : List Status :=
  [Status.submitted, Status.actionNeeded, Status.approved, Status.rejected,
   Status.ineligible]

/-- `DomainRequest.in_review`: guarded by `domain_is_not_active` and
`investigator_exists_and_is_staff`; cleans up the approved domain when the
source is Approved, clears `rejection_reason` when Rejected and
`action_needed_reason` when ActionNeeded; target InReview. -/
def in_review (env : Env) (r : DomainRequest) : TRes :=
  if r.status ∉ inReviewSources then
    ⟨r, [], some WorkflowError.transitionNotAllowed⟩
  else if !(domain_is_not_active r && investigator_exists_and_is_staff r) then
    ⟨r, [], some WorkflowError.transitionNotAllowed⟩
  else
    let r1 :=
      if r.status = Status.approved then delete_and_clean_up_domain env r
      else if r.status = Status.rejected then
        { r with rejection_reason := none }
      else if r.status = Status.actionNeeded then
        { r with action_needed_reason := none }
      else r
    ⟨{ r1 with status := Status.inReview }, [], none⟩

/-- The legal source statuses of `action_needed`. -/
def actionNeededSources : List Status :=
  [Status.inReview, Status.approved, Status.rejected, Status.ineligible]

/-- `DomainRequest.action_needed`: guarded like `in_review`; cleans up the
approved domain when the source is Approved and clears `rejection_reason`
when Rejected; target ActionNeeded (the reason email goes out later, from
`save`). -/
def action_needed (env : Env) (r : DomainRequest) : TRes :=
  if r.status ∉ actionNeededSources then
    ⟨r, [], some WorkflowError.transitionNotAllowed⟩
  else if !(domain_is_not_active r && investigator_exists_and_is_staff r) then
    ⟨r, [], some WorkflowError.transitionNotAllowed⟩
  else
    let r1 :=
      if r.status = Status.approved then delete_and_clean_up_domain env r
      else if r.status = Status.rejected then
        { r with rejection_reason := none }
      else r
    ⟨{ r1 with status := Status.actionNeeded }, [], none⟩

/-- The legal source statuses of `approve`. -/
def approveSources : List Status :=
  [Status.submitted, Status.inReview, Status.actionNeeded, Status.rejected]

/-- `DomainRequest.approve`: guarded only by
`investigator_exists_and_is_staff`. When `federal_agency` is unset it is
defaulted to "Non-Federal Agency" and the request is saved BEFORE the
name-in-use check; a request whose requested name already exists as a
`Domain` then raises `FSMDomainRequestError(APPROVE_DOMAIN_IN_USE)` with that
mutation already persisted. Otherwise the domain is created (registry state
`UNKNOWN`), `approved_domain` is set, the stale reason for a Rejected or
ActionNeeded source is cleared, the approval notification is sent subject to
`send_email`, and the status moves to Approved.
`approveFedStep` is the opening statement of the body: default a missing
`federal_agency` to "Non-Federal Agency" and save; an error carries the
already-mutated state. -/
def approveFedStep (env : Env) (r : DomainRequest) :
    Except (DomainRequest × String) (DomainRequest × List Email) :=
  if r.federal_agency = none then
    let ra := { r with federal_agency := some "Non-Federal Agency" }
    match save r env.today ra with
    | Except.error m => Except.error (ra, m)
    | Except.ok (rb, es) => Except.ok (rb, es)
  else Except.ok (r, [])

def approve (env : Env) (send_email : Bool) (r : DomainRequest) : TRes :=
  if r.status ∉ approveSources then
    ⟨r, [], some WorkflowError.transitionNotAllowed⟩
  else if !investigator_exists_and_is_staff r then
    ⟨r, [], some WorkflowError.transitionNotAllowed⟩
  else
    match approveFedStep env r with
    | Except.error (ra, m) =>
        ⟨ra, [], some (WorkflowError.reconciliationError m)⟩
    | Except.ok (r2, savedEmails) =>
      match r2.requested_domain with
      | none =>
          -- self.requested_domain.name raises AttributeError on None
          ⟨r2, savedEmails, some (WorkflowError.valueError
            "requested_domain is None")⟩
      | some name =>
        if env.domain_exists name then
          ⟨r2, savedEmails, some WorkflowError.approveDomainInUse⟩
        else
          let created : Domain := ⟨name, DomainState.unknown⟩
          let r3 := { r2 with approved_domain := some created }
          let r4 :=
            if r3.status = Status.rejected then
              { r3 with rejection_reason := none }
            else if r3.status = Status.actionNeeded then
              { r3 with action_needed_reason := none }
            else r3
          let emails := savedEmails ++
            _send_status_update_email r4 send_email Email.approvalConfirmation
          ⟨{ r4 with status := Status.approved }, emails, none⟩

/-- The legal source statuses of `reject`. -/
def rejectSources : List Status :=
  [Status.inReview, Status.actionNeeded, Status.approved]

/-- `DomainRequest.reject`: guarded like `in_review`; cleans up the approved
domain when the source is Approved; target Rejected. This transition sends no
notification itself. -/
def reject (env : Env) (r : DomainRequest) : TRes :=
  if r.status ∉ rejectSources then
    ⟨r, [], some WorkflowError.transitionNotAllowed⟩
  else if !(domain_is_not_active r && investigator_exists_and_is_staff r) then
    ⟨r, [], some WorkflowError.transitionNotAllowed⟩
  else
    let r1 :=
      if r.status = Status.approved then delete_and_clean_up_domain env r
      else r
    ⟨{ r1 with status := Status.rejected }, [], none⟩

/-- The legal source statuses of `reject_with_prejudice`. -/
def rejectWithPrejudiceSources : List Status :=
  [Status.inReview, Status.actionNeeded, Status.approved, Status.rejected]

/-- `DomainRequest.reject_with_prejudice`: guarded like `in_review`; cleans
up the approved domain when the source is Approved, restricts the creator
account, sends no notification; target Ineligible. -/
def reject_with_prejudice (env : Env) (r : DomainRequest) : TRes :=
  if r.status ∉ rejectWithPrejudiceSources then
    ⟨r, [], some WorkflowError.transitionNotAllowed⟩
  else if !(domain_is_not_active r && investigator_exists_and_is_staff r) then
    ⟨r, [], some WorkflowError.transitionNotAllowed⟩
  else
    let r1 :=
      if r.status = Status.approved then delete_and_clean_up_domain env r
      else r
    let r2 := { r1 with creator := { r1.creator with restricted := true } }
    ⟨{ r2 with status := Status.ineligible }, [], none⟩

/-- `DomainRequest._is_federal_complete`. -/
def _is_federal_complete (r : DomainRequest) : Bool :=
  !(r.federal_type = none ∨ r.federal_agency = none)

/-- `DomainRequest._is_interstate_complete`. -/
def _is_interstate_complete (r : DomainRequest) : Bool :=
  r.about_your_organization ≠ none

/-- `DomainRequest._is_state_or_territory_complete`. -/
def _is_state_or_territory_complete (r : DomainRequest) : Bool :=
  r.is_election_board ≠ none

/-- `DomainRequest._is_tribal_complete`. -/
def _is_tribal_complete (r : DomainRequest) : Bool :=
  r.tribe_name ≠ none && r.is_election_board ≠ none

/-- `DomainRequest._is_county_complete`. -/
def _is_county_complete (r : DomainRequest) : Bool :=
  r.is_election_board ≠ none

/-- `DomainRequest._is_city_complete`. -/
def _is_city_complete (r : DomainRequest) : Bool :=
  r.is_election_board ≠ none

/-- `DomainRequest._is_special_district_complete`. -/
def _is_special_district_complete (r : DomainRequest) : Bool :=
  r.is_election_board ≠ none && r.about_your_organization ≠ none

/-- `DomainRequest._is_creator_complete`: the creator foreign key is
non-nullable in this model, mirroring the required relation. -/
def _is_creator_complete (_r : DomainRequest) : Bool :=
  true

/-- `DomainRequest._is_organization_name_and_address_complete`: the source
negates the conjunction of the five null checks, so the section counts as
complete as soon as ANY of the five fields is set. -/
def _is_organization_name_and_address_complete (r : DomainRequest) : Bool :=
  !(r.organization_name = none
    ∧ r.address_line1 = none
    ∧ r.city = none
    ∧ r.state_territory = none
    ∧ r.zipcode = none)

/-- `DomainRequest._is_senior_official_complete`. -/
def _is_senior_official_complete (r : DomainRequest) : Bool :=
  r.senior_official ≠ none

/-- `DomainRequest._is_requested_domain_complete`. -/
def _is_requested_domain_complete (r : DomainRequest) : Bool :=
  r.requested_domain ≠ none

/-- `DomainRequest._is_purpose_complete`. -/
def _is_purpose_complete (r : DomainRequest) : Bool :=
  r.purpose ≠ none

/-- `DomainRequest.has_other_contacts`: the many-to-many relation is
non-empty. -/
def has_other_contacts (r : DomainRequest) : Bool :=
  !r.other_contacts.isEmpty

/-- A contact with every field of the admin filter non-null. -/
def contactFilled (c : Contact) : Bool :=
  c.first_name ≠ none && c.last_name ≠ none && c.title ≠ none &&
  c.email ≠ none && c.phone ≠ none

/-- `DomainRequest._has_other_contacts_and_filled`: there are other contacts
and at least one has every required field non-null. -/
def _has_other_contacts_and_filled (r : DomainRequest) : Bool :=
  has_other_contacts r && r.other_contacts.any contactFilled

/-- `DomainRequest._has_no_other_contacts_gives_rationale`. -/
def _has_no_other_contacts_gives_rationale (r : DomainRequest) : Bool :=
  has_other_contacts r = false && r.no_other_contacts_rationale ≠ none

/-- `DomainRequest._is_other_contacts_complete`. -/
def _is_other_contacts_complete (r : DomainRequest) : Bool :=
  _has_other_contacts_and_filled r || _has_no_other_contacts_gives_rationale r

/-- `DomainRequest._cisa_rep_check`. -/
def _cisa_rep_check (r : DomainRequest) : Bool :=
  (r.has_cisa_representative = some true
    && r.cisa_representative_first_name ≠ none
    && filledStr r.cisa_representative_first_name
    && r.cisa_representative_last_name ≠ none
    && filledStr r.cisa_representative_last_name)
  || r.has_cisa_representative = some false

/-- `DomainRequest._anything_else_radio_button_and_text_field_check`. -/
def _anything_else_radio_button_and_text_field_check (r : DomainRequest) :
    Bool :=
  (r.has_anything_else_text = some true && r.anything_else ≠ none
    && filledStr r.anything_else)
  || r.has_anything_else_text = some false

/-- `DomainRequest._is_additional_details_complete`. -/
def _is_additional_details_complete (r : DomainRequest) : Bool :=
  _cisa_rep_check r && _anything_else_radio_button_and_text_field_check r

/-- `DomainRequest._is_policy_acknowledgement_complete`. -/
def _is_policy_acknowledgement_complete (r : DomainRequest) : Bool :=
  r.is_policy_acknowledged ≠ none

/-- `DomainRequest._is_general_form_complete` (its `request` argument is the
HTTP request and is unused). -/
def _is_general_form_complete (r : DomainRequest) (_request : Unit) : Bool :=
  _is_creator_complete r
  && _is_organization_name_and_address_complete r
  && _is_senior_official_complete r
  && _is_requested_domain_complete r
  && _is_purpose_complete r
  && _is_other_contacts_complete r
  && _is_additional_details_complete r
  && _is_policy_acknowledgement_complete r

/-- `DomainRequest._form_complete`: dispatch on `generic_org_type` for the
type-specific section (no or unknown type is incomplete), then require the
general form predicates. -/
def _form_complete (r : DomainRequest) (request : Unit) : Bool :=
  let is_complete :=
    if r.generic_org_type = some "federal" then _is_federal_complete r
    else if r.generic_org_type = some "interstate" then
      _is_interstate_complete r
    else if r.generic_org_type = some "state_or_territory" then
      _is_state_or_territory_complete r
    else if r.generic_org_type = some "tribal" then _is_tribal_complete r
    else if r.generic_org_type = some "county" then _is_county_complete r
    else if r.generic_org_type = some "city" then _is_city_complete r
    else if r.generic_org_type = some "special_district" then
      _is_special_district_complete r
    else if r.generic_org_type = some "school_district" then true
    else false
  if !is_complete || !_is_general_form_complete r request then false
  else true

/-! Proof-layer helpers: closed forms for the field updates performed by
`sync_yes_no_form_fields`, the packaged result of a successful `save`, and
the per-persist email decision, used to state and prove the theorems. -/

/-- The `has_cisa_representative` value after the first statement of
`sync_yes_no_form_fields`. -/
def cisaFlag1 (r : DomainRequest) : Option Bool :=
  if r.cisa_representative_first_name ≠ none ∨
      r.cisa_representative_last_name ≠ none then
    some (pyNeqEmpty r.cisa_representative_first_name &&
      pyNeqEmpty r.cisa_representative_last_name)
  else r.has_cisa_representative

/-- The refinement applied by the second statement of
`sync_yes_no_form_fields` to a flag value. -/
def cisaFlag2 (first last : Option String) (flag : Option Bool) :
    Option Bool :=
  if flag ≠ none then some (filledStr first && filledStr last) else flag

/-- The second statement of `sync_yes_no_form_fields` applied to a request's
own fields. -/
def cisaFlag2Of (r : DomainRequest) : Option Bool :=
  cisaFlag2 r.cisa_representative_first_name r.cisa_representative_last_name
    r.has_cisa_representative

/-- The `has_cisa_representative` value after `sync_yes_no_form_fields`. -/
def cisaSyncFlag (r : DomainRequest) : Option Bool :=
  cisaFlag2 r.cisa_representative_first_name r.cisa_representative_last_name
    (cisaFlag1 r)

/-- The `has_anything_else_text` value after the third statement of
`sync_yes_no_form_fields`. -/
def anythingFlag1 (r : DomainRequest) : Option Bool :=
  if r.anything_else ≠ none then some (pyNeqEmpty r.anything_else)
  else r.has_anything_else_text

/-- The refinement applied by the fourth statement of
`sync_yes_no_form_fields` to a flag value. -/
def anythingFlag2 (anything : Option String) (flag : Option Bool) :
    Option Bool :=
  if flag ≠ none then some (filledStr anything) else flag

/-- The fourth statement of `sync_yes_no_form_fields` applied to a request's
own fields. -/
def anythingFlag2Of (r : DomainRequest) : Option Bool :=
  anythingFlag2 r.anything_else r.has_anything_else_text

/-- The `has_anything_else_text` value after `sync_yes_no_form_fields`. -/
def anythingSyncFlag (r : DomainRequest) : Option Bool :=
  anythingFlag2 r.anything_else (anythingFlag1 r)

/-- The state and emails produced by a `save` whose two reconciliation steps
are no-ops (the case where the organization fields are unchanged from the
database row). -/
def saveResult (today : Nat) (r : DomainRequest) :
    DomainRequest × List Email :=
  let r2 := stampStatusUpdate today (sync_yes_no_form_fields r)
  let emails :=
    if r2.status = Status.actionNeeded ∨ r2.status = Status.rejected then
      send_custom_status_update_email r2 r2.status
    else []
  (_cache_status_and_status_reasons r2, emails)

/-- One reason update applied by an operator before a persist: the reason and
explanatory email body for the current status. -/
structure ReasonUpdate where
  reason : Option String
  email : Option String
deriving DecidableEq, Repr

/-- Set the reason and reason-email fields belonging to the request's
current status. -/
def applyReasonUpdate (r : DomainRequest) (u : ReasonUpdate) : DomainRequest :=
  if r.status = Status.rejected then
    { r with rejection_reason := u.reason,
             rejection_reason_email := u.email }
  else
    { r with action_needed_reason := u.reason,
             action_needed_reason_email := u.email }

/-- One persist: apply the reason update, then `save` against the previous
state as the database row. No organization field changes, so the
reconciliation never fails; the error branch is dead code. -/
def persistReasonUpdate (today : Nat) (r : DomainRequest) (u : ReasonUpdate) :
    DomainRequest × List Email :=
  match save r today (applyReasonUpdate r u) with
  | Except.ok (r2, es) => (r2, es)
  | Except.error _ => (applyReasonUpdate r u, [])

/-- A sequence of persists, collecting every email dispatched. -/
def runSaves (today : Nat) (r : DomainRequest) :
    List ReasonUpdate → DomainRequest × List Email
  | [] => (r, [])
  | u :: us =>
    let step := persistReasonUpdate today r u
    let rest := runSaves today step.1 us
    (rest.1, step.2 ++ rest.2)

/-- How many of the given emails are custom status emails for the given
reason. -/
def countReason (es : List Email) (rsn : String) : Nat :=
  es.countP fun e =>
    match e with
    | Email.customStatus _ s _ => s = rsn
    | _ => false

/-- The emails produced by one persist of a request sitting in ActionNeeded,
as a function of the creator email, the cached reason and the update. -/
def emailsAN (creatorEmail : Option String) (cached : Option String)
    (u : ReasonUpdate) : List Email :=
  match u.email with
  | none => []
  | some body =>
    match u.reason with
    | none => []
    | some rsn =>
      if rsn ∈ ["other"] then []
      else if cached ≠ some rsn ∨ cached = none then
        match creatorEmail with
        | none => []
        | some _ => [Email.customStatus Status.actionNeeded rsn body]
      else []

/-- The emails produced by one persist of a request sitting in Rejected. -/
def emailsREJ (creatorEmail : Option String) (cached : Option String)
    (u : ReasonUpdate) : List Email :=
  match u.email with
  | none => []
  | some body =>
    match u.reason with
    | none => []
    | some rsn =>
      if cached ≠ some rsn ∨ cached = none then
        match creatorEmail with
        | none => []
        | some _ => [Email.customStatus Status.rejected rsn body]
      else []

/-- The roundtrip of claim C6: derive the generic/election pair from an
organization type with the inverse map, then derive the organization type
back with the forward map. -/
def orgTypeRoundtrip (base : DomainRequest) (ot : String) : Option String :=
  let i := { base with organization_type := some ot }
  let i2 := _update_generic_org_and_election_from_org_type i
  (_update_org_type_from_generic_org_and_election i2).organization_type

/-! Concrete fixtures used by counterexamples and witnesses. -/

/-- A registrant with a contact email, neither staff nor restricted. -/
def baseCreator : User :=
  { email := some "creator@example.gov", is_staff := false,
    restricted := false }

/-- A staff analyst usable as investigator. -/
def staffUser : User :=
  { email := some "analyst@example.gov", is_staff := true,
    restricted := false }

/-- A freshly started, empty request. -/
def baseRequest : DomainRequest :=
  { status := Status.started,
    rejection_reason := none, rejection_reason_email := none,
    action_needed_reason := none, action_needed_reason_email := none,
    federal_agency := none, creator := baseCreator, investigator := none,
    generic_org_type := none, is_election_board := none,
    organization_type := none, tribe_name := none, federal_type := none,
    organization_name := none, address_line1 := none, address_line2 := none,
    city := none, state_territory := none, zipcode := none,
    about_your_organization := none, senior_official := none,
    approved_domain := none, requested_domain := none, purpose := none,
    other_contacts := [], no_other_contacts_rationale := none,
    anything_else := none, has_anything_else_text := none,
    cisa_representative_email := none,
    cisa_representative_first_name := none,
    cisa_representative_last_name := none, has_cisa_representative := none,
    is_policy_acknowledged := none, first_submitted_date := none,
    last_submitted_date := none, last_status_update := none,
    _cached_status := Status.started, _cached_action_needed_reason := none,
    _cached_rejection_reason := none }

/-- An environment where no domain name is taken, every name is syntactically
valid and the registry deletion succeeds. -/
def envOk : Env :=
  { domain_exists := fun _ => false, string_could_be_domain := fun _ => true,
    epp_delete_raises := false, today := 100 }

/-- An environment where the registry deletion raises. -/
def envRaise : Env :=
  { envOk with epp_delete_raises := true }

/-- An environment where every domain name is already taken. -/
def envInUse : Env :=
  { envOk with domain_exists := fun _ => true }

/-- A new record carrying the agreeing triple of claim C5:
`organization_type` "tribal_election", `generic_org_type` "tribal" and
`is_election_board` true. -/
def newTribalElectionRequest : DomainRequest :=
  { baseRequest with
    generic_org_type := some "tribal",
    is_election_board := some true,
    organization_type := some "tribal_election" }

/-- An Approved request holding a known (non-`UNKNOWN`), non-active approved
domain, with a staff investigator: eligible for `in_review` and friends. -/
def approvedDnsNeededRequest : DomainRequest :=
  { baseRequest with
    status := Status.approved,
    _cached_status := Status.approved,
    approved_domain := some { name := "city.gov",
                              state := DomainState.dnsNeeded },
    requested_domain := some "city.gov",
    investigator := some staffUser }

/-- A Submitted request with a staff investigator, a requested domain and no
federal agency: eligible for `approve` up to the name-in-use check. -/
def submittedNoAgencyRequest : DomainRequest :=
  { baseRequest with
    status := Status.submitted,
    _cached_status := Status.submitted,
    requested_domain := some "city.gov",
    investigator := some staffUser }

/-- An ActionNeeded request with no reason yet recorded. -/
def actionNeededRequest : DomainRequest :=
  { baseRequest with
    status := Status.actionNeeded,
    _cached_status := Status.actionNeeded,
    requested_domain := some "city.gov",
    investigator := some staffUser }

/-- A Rejected request with no reason yet recorded. -/
def rejectedRequest : DomainRequest :=
  { baseRequest with
    status := Status.rejected,
    _cached_status := Status.rejected,
    requested_domain := some "city.gov",
    investigator := some staffUser }

/-- The persist sequence of the C4 counterexample: reason A, then reason B,
then reason A again, each with an explanatory body. -/
def reasonABAUpdates : List ReasonUpdate :=
  [{ reason := some "bad_name", email := some "body one" },
   { reason := some "eligibility_unclear", email := some "body two" },
   { reason := some "bad_name", email := some "body three" }]

/-- A started request with a requested domain, ready for submission. -/
def startedRequest : DomainRequest :=
  { baseRequest with requested_domain := some "city.gov" }

/-- A withdrawn request. -/
def withdrawnRequest : DomainRequest :=
  { baseRequest with
    status := Status.withdrawn,
    _cached_status := Status.withdrawn,
    requested_domain := some "city.gov",
    investigator := some staffUser }

/-- A request whose completion flags are stale: `anything_else` holds text
while its flag says no, and the CISA flag says yes while the last name is the
empty string. -/
def staleFlagsRequest : DomainRequest :=
  { baseRequest with
    anything_else := some "Extra context",
    has_anything_else_text := some false,
    cisa_representative_first_name := some "Sam",
    cisa_representative_last_name := some "",
    has_cisa_representative := some true }

/-- An existing county record as stored in the database. -/
def countyCurrent : DomainRequest :=
  { baseRequest with
    organization_type := some "county",
    generic_org_type := some "county",
    is_election_board := some true }

/-- The same record with `organization_type` changed to "county_election" and
`is_election_board` changed to false in the same save. -/
def countyElectionInst : DomainRequest :=
  { countyCurrent with
    organization_type := some "county_election",
    is_election_board := some false }

/-- A well-formed other contact. -/
def filledContact : Contact :=
  { first_name := some "Alex", last_name := some "Doe",
    title := some "Clerk", email := some "alex@example.gov",
    phone := some "(555) 555 5555" }

/-- The C9 counterexample: a school-district request that is complete in
every section, has `organization_name` set, but has `address_line1`, `city`,
`state_territory` and `zipcode` all unset. -/
def nameOnlyCompleteRequest : DomainRequest :=
  { baseRequest with
    generic_org_type := some "school_district",
    organization_name := some "Example School District",
    senior_official := some filledContact,
    requested_domain := some "example.gov",
    purpose := some "A public website.",
    other_contacts := [filledContact],
    has_cisa_representative := some false,
    has_anything_else_text := some false,
    anything_else := some "",
    is_policy_acknowledged := some true }

/-! Helper lemmas shared by the claim theorems. -/

theorem except_bind_ok {α β γ : Type} (a : α) (f : α → Except γ β) :
    (Except.ok a >>= f : Except γ β) = f a :=
  rfl

theorem syncCisaStep1_eq (r : DomainRequest) :
    syncCisaStep1 r = { r with has_cisa_representative := cisaFlag1 r } := by
  unfold syncCisaStep1 cisaFlag1
  split
  · rfl
  · rfl

theorem syncCisaStep2_eq (r : DomainRequest) :
    syncCisaStep2 r = { r with has_cisa_representative := cisaFlag2Of r } := by
  unfold syncCisaStep2 cisaFlag2Of cisaFlag2
  split
  · rfl
  · rfl

theorem syncAnythingStep1_eq (r : DomainRequest) :
    syncAnythingStep1 r =
      { r with has_anything_else_text := anythingFlag1 r } := by
  unfold syncAnythingStep1 anythingFlag1
  split
  · rfl
  · rfl

theorem syncAnythingStep2_eq (r : DomainRequest) :
    syncAnythingStep2 r =
      { r with has_anything_else_text := anythingFlag2Of r } := by
  unfold syncAnythingStep2 anythingFlag2Of anythingFlag2
  split
  · rfl
  · rfl

theorem sync_yes_no_eq (r : DomainRequest) :
    sync_yes_no_form_fields r =
      { r with has_cisa_representative := cisaSyncFlag r,
               has_anything_else_text := anythingSyncFlag r } := by
  unfold sync_yes_no_form_fields
  rw [syncCisaStep1_eq, syncCisaStep2_eq, syncAnythingStep1_eq,
    syncAnythingStep2_eq]
  rfl

theorem create_or_update_noop (current r : DomainRequest)
    (h1 : r.generic_org_type = current.generic_org_type)
    (h2 : r.is_election_board = current.is_election_board)
    (h3 : r.organization_type = current.organization_type) :
    create_or_update_organization_type false current r = Except.ok r := by
  unfold create_or_update_organization_type
  simp [h1, h2, h3]

theorem sync_org_noop (current r : DomainRequest)
    (h1 : r.generic_org_type = current.generic_org_type)
    (h2 : r.is_election_board = current.is_election_board)
    (h3 : r.organization_type = current.organization_type) :
    sync_organization_type false current r = Except.ok r := by
  unfold sync_organization_type
  simp [h1, h2, h3]

theorem stamp_generic (today : Nat) (r : DomainRequest) :
    (stampStatusUpdate today r).generic_org_type = r.generic_org_type := by
  unfold stampStatusUpdate
  split
  · rfl
  · rfl

theorem stamp_election (today : Nat) (r : DomainRequest) :
    (stampStatusUpdate today r).is_election_board = r.is_election_board := by
  unfold stampStatusUpdate
  split
  · rfl
  · rfl

theorem stamp_org_type (today : Nat) (r : DomainRequest) :
    (stampStatusUpdate today r).organization_type = r.organization_type := by
  unfold stampStatusUpdate
  split
  · rfl
  · rfl

theorem save_eq (current r : DomainRequest) (today : Nat)
    (h1 : r.generic_org_type = current.generic_org_type)
    (h2 : r.is_election_board = current.is_election_board)
    (h3 : r.organization_type = current.organization_type) :
    save current today r = Except.ok (saveResult today r) := by
  have hs : sync_organization_type false current r = Except.ok r :=
    sync_org_noop current r h1 h2 h3
  have hg : (stampStatusUpdate today (sync_yes_no_form_fields r)).generic_org_type
      = current.generic_org_type := by
    rw [stamp_generic, sync_yes_no_eq]
    exact h1
  have he : (stampStatusUpdate today (sync_yes_no_form_fields r)).is_election_board
      = current.is_election_board := by
    rw [stamp_election, sync_yes_no_eq]
    exact h2
  have ho : (stampStatusUpdate today (sync_yes_no_form_fields r)).organization_type
      = current.organization_type := by
    rw [stamp_org_type, sync_yes_no_eq]
    exact h3
  have hc := create_or_update_noop current
    (stampStatusUpdate today (sync_yes_no_form_fields r)) hg he ho
  unfold save
  rw [hs]
  simp only [except_bind_ok]
  rw [hc]
  simp only [except_bind_ok]
  rfl

theorem cleanup_clears (env : Env) (r : DomainRequest)
    (hraise : env.epp_delete_raises = false) :
    (delete_and_clean_up_domain env r).approved_domain = none := by
  unfold delete_and_clean_up_domain
  rcases had : r.approved_domain with _ | d
  · simp [had]
  · by_cases hd : d.state = DomainState.unknown
    · simp [had, hd]
    · simp [had, hd, hraise]

theorem saveResult_state_proj (today : Nat) (r : DomainRequest) :
    (saveResult today r).1.status = r.status ∧
    (saveResult today r).1.requested_domain = r.requested_domain ∧
    (saveResult today r).1.federal_agency = r.federal_agency ∧
    (saveResult today r).1.creator = r.creator ∧
    (saveResult today r).1.first_submitted_date = r.first_submitted_date ∧
    (saveResult today r).1.last_submitted_date = r.last_submitted_date ∧
    (saveResult today r).1.approved_domain = r.approved_domain ∧
    (saveResult today r).1.action_needed_reason = r.action_needed_reason ∧
    (saveResult today r).1.rejection_reason = r.rejection_reason ∧
    (saveResult today r).1._cached_action_needed_reason =
      r.action_needed_reason ∧
    (saveResult today r).1._cached_rejection_reason = r.rejection_reason ∧
    (saveResult today r).1._cached_status = r.status ∧
    (saveResult today r).1.generic_org_type = r.generic_org_type ∧
    (saveResult today r).1.is_election_board = r.is_election_board ∧
    (saveResult today r).1.organization_type = r.organization_type := by
  unfold saveResult _cache_status_and_status_reasons stampStatusUpdate
  rw [sync_yes_no_eq]
  split
  · exact ⟨rfl, rfl, rfl, rfl, rfl, rfl, rfl, rfl, rfl, rfl, rfl, rfl, rfl,
      rfl, rfl⟩
  · exact ⟨rfl, rfl, rfl, rfl, rfl, rfl, rfl, rfl, rfl, rfl, rfl, rfl, rfl,
      rfl, rfl⟩

theorem send_custom_all_custom (r : DomainRequest) (st : Status) :
    ∀ e ∈ send_custom_status_update_email r st,
      ∃ a b c, e = Email.customStatus a b c := by
  intro e he
  unfold send_custom_status_update_email _send_status_update_email at he
  cases st with
  | actionNeeded =>
    rw [if_pos rfl] at he
    rcases hb : r.action_needed_reason_email with _ | body <;>
        simp only [hb] at he
    · simp at he
    · rcases hr : r.action_needed_reason with _ | rsn <;>
          simp only [hr] at he
      · simp at he
      · split at he
        · simp at he
        · split at he
          · rcases hce : r.creator.email with _ | s <;>
                simp only [hce] at he
            · simp at he
            · simp at he
              exact ⟨_, _, _, he⟩
          · simp at he
  | rejected =>
    rw [if_neg (by decide), if_pos rfl] at he
    rcases hb : r.rejection_reason_email with _ | body <;>
        simp only [hb] at he
    · simp at he
    · rcases hr : r.rejection_reason with _ | rsn <;>
          simp only [hr] at he
      · simp at he
      · split at he
        · simp at he
        · split at he
          · rcases hce : r.creator.email with _ | s <;>
                simp only [hce] at he
            · simp at he
            · simp at he
              exact ⟨_, _, _, he⟩
          · simp at he
  | started => simp at he
  | submitted => simp at he
  | inReview => simp at he
  | approved => simp at he
  | ineligible => simp at he
  | withdrawn => simp at he

theorem saveResult_no_submission (today : Nat) (r : DomainRequest) :
    Email.submissionConfirmation ∉ (saveResult today r).2 := by
  intro hmem
  simp only [saveResult] at hmem
  split at hmem
  · obtain ⟨a, b, c, habc⟩ := send_custom_all_custom _ _ _ hmem
    exact Email.noConfusion habc
  · simp at hmem

theorem submitDates_proj (today : Nat) (r : DomainRequest) :
    (submitDates today r).generic_org_type = r.generic_org_type ∧
    (submitDates today r).is_election_board = r.is_election_board ∧
    (submitDates today r).organization_type = r.organization_type ∧
    (submitDates today r).status = r.status ∧
    (submitDates today r).creator = r.creator ∧
    (submitDates today r).first_submitted_date =
      (if r.first_submitted_date = none then some today
        else r.first_submitted_date) ∧
    (submitDates today r).last_submitted_date = some today := by
  unfold submitDates
  by_cases h : r.first_submitted_date = none <;> simp [h]

theorem upd_forward_c10 (i : DomainRequest) :
    (_update_org_type_from_generic_org_and_election i).anything_else =
      i.anything_else ∧
    (_update_org_type_from_generic_org_and_election i).has_anything_else_text
      = i.has_anything_else_text ∧
    (_update_org_type_from_generic_org_and_election
      i).cisa_representative_first_name = i.cisa_representative_first_name ∧
    (_update_org_type_from_generic_org_and_election
      i).cisa_representative_last_name = i.cisa_representative_last_name ∧
    (_update_org_type_from_generic_org_and_election
      i).has_cisa_representative = i.has_cisa_representative := by
  unfold _update_org_type_from_generic_org_and_election
  dsimp only
  rcases hlk : List.lookup (pyStr i.generic_org_type)
      get_org_generic_to_org_election with _ | v
  · simp [hlk]
  · simp only [hlk]
    split <;> simp

theorem upd_reverse_c10 (i : DomainRequest) :
    (_update_generic_org_and_election_from_org_type i).anything_else =
      i.anything_else ∧
    (_update_generic_org_and_election_from_org_type
      i).has_anything_else_text = i.has_anything_else_text ∧
    (_update_generic_org_and_election_from_org_type
      i).cisa_representative_first_name =
      i.cisa_representative_first_name ∧
    (_update_generic_org_and_election_from_org_type
      i).cisa_representative_last_name = i.cisa_representative_last_name ∧
    (_update_generic_org_and_election_from_org_type
      i).has_cisa_representative = i.has_cisa_representative := by
  unfold _update_generic_org_and_election_from_org_type
  dsimp only
  rcases hlk : List.lookup (pyStr i.organization_type)
      get_org_election_to_org_generic with _ | v <;> simp [hlk]

theorem create_or_update_ok_c10 (current i r3 : DomainRequest)
    (h : create_or_update_organization_type false current i =
      Except.ok r3) :
    r3.anything_else = i.anything_else ∧
    r3.has_anything_else_text = i.has_anything_else_text ∧
    r3.cisa_representative_first_name = i.cisa_representative_first_name ∧
    r3.cisa_representative_last_name = i.cisa_representative_last_name ∧
    r3.has_cisa_representative = i.has_cisa_representative := by
  unfold create_or_update_organization_type at h
  rw [if_neg (by simp)] at h
  dsimp only at h
  split at h
  · exact Except.noConfusion h
  · split at h
    · obtain rfl : i = r3 := by
        simpa using h
      exact ⟨rfl, rfl, rfl, rfl, rfl⟩
    · split at h
      · obtain rfl : _update_org_type_from_generic_org_and_election i = r3 :=
          by simpa using h
        exact upd_forward_c10 i
      · split at h
        · obtain rfl :
              _update_generic_org_and_election_from_org_type i = r3 := by
            simpa using h
          exact upd_reverse_c10 i
        · obtain rfl : i = r3 := by
            simpa using h
          exact ⟨rfl, rfl, rfl, rfl, rfl⟩

theorem sync_yes_no_invariant (x : DomainRequest) :
    (∀ s, (sync_yes_no_form_fields x).anything_else = some s →
      (sync_yes_no_form_fields x).has_anything_else_text =
        some (decide (s ≠ ""))) ∧
    (∀ b, (sync_yes_no_form_fields x).has_cisa_representative = some b →
      b = (filledStr
          (sync_yes_no_form_fields x).cisa_representative_first_name &&
        filledStr
          (sync_yes_no_form_fields x).cisa_representative_last_name)) := by
  rw [sync_yes_no_eq]
  constructor
  · intro s hs
    have hs' : x.anything_else = some s := hs
    show anythingSyncFlag x = some (decide (s ≠ ""))
    unfold anythingSyncFlag anythingFlag2 anythingFlag1
    rw [hs']
    simp [filledStr]
  · intro b hb
    have hb' : cisaSyncFlag x = some b := hb
    show b = (filledStr x.cisa_representative_first_name &&
      filledStr x.cisa_representative_last_name)
    unfold cisaSyncFlag cisaFlag2 at hb'
    by_cases hc : cisaFlag1 x = none
    · rw [if_neg (not_not_intro hc)] at hb'
      rw [hc] at hb'
      exact absurd hb' (by simp)
    · rw [if_pos hc] at hb'
      exact (Option.some.inj hb').symm

theorem stampSync_proj (today : Nat) (x : DomainRequest) :
    (stampStatusUpdate today (sync_yes_no_form_fields x)).status = x.status ∧
    (stampStatusUpdate today (sync_yes_no_form_fields x)).creator =
      x.creator ∧
    (stampStatusUpdate today
      (sync_yes_no_form_fields x)).action_needed_reason =
      x.action_needed_reason ∧
    (stampStatusUpdate today
      (sync_yes_no_form_fields x)).action_needed_reason_email =
      x.action_needed_reason_email ∧
    (stampStatusUpdate today
      (sync_yes_no_form_fields x))._cached_action_needed_reason =
      x._cached_action_needed_reason ∧
    (stampStatusUpdate today (sync_yes_no_form_fields x)).rejection_reason =
      x.rejection_reason ∧
    (stampStatusUpdate today
      (sync_yes_no_form_fields x)).rejection_reason_email =
      x.rejection_reason_email ∧
    (stampStatusUpdate today
      (sync_yes_no_form_fields x))._cached_rejection_reason =
      x._cached_rejection_reason := by
  rw [sync_yes_no_eq]
  unfold stampStatusUpdate
  split <;> exact ⟨rfl, rfl, rfl, rfl, rfl, rfl, rfl, rfl⟩

theorem saveResult_emails_AN (today : Nat) (x : DomainRequest)
    (hx : x.status = Status.actionNeeded) :
    (saveResult today x).2 =
      emailsAN x.creator.email x._cached_action_needed_reason
        ⟨x.action_needed_reason, x.action_needed_reason_email⟩ := by
  obtain ⟨s1, s2, s3, s4, s5, s6, s7, s8⟩ := stampSync_proj today x
  unfold saveResult
  dsimp only
  rw [s1, hx, if_pos (Or.inl rfl)]
  unfold send_custom_status_update_email _send_status_update_email emailsAN
  rw [if_pos rfl]
  dsimp only
  rw [s2, s3, s4, s5]
  rcases x.action_needed_reason_email with _ | body
  · rfl
  · rcases x.action_needed_reason with _ | rsn
    · rfl
    · dsimp only
      split
      · rfl
      · split
        · rcases x.creator.email with _ | s
          · rfl
          · simp
        · rfl

theorem saveResult_emails_REJ (today : Nat) (x : DomainRequest)
    (hx : x.status = Status.rejected) :
    (saveResult today x).2 =
      emailsREJ x.creator.email x._cached_rejection_reason
        ⟨x.rejection_reason, x.rejection_reason_email⟩ := by
  obtain ⟨s1, s2, s3, s4, s5, s6, s7, s8⟩ := stampSync_proj today x
  unfold saveResult
  dsimp only
  rw [s1, hx, if_pos (Or.inr rfl)]
  unfold send_custom_status_update_email _send_status_update_email emailsREJ
  rw [if_neg (by decide), if_pos rfl]
  dsimp only
  rw [s2, s6, s7, s8]
  rcases x.rejection_reason_email with _ | body
  · rfl
  · rcases x.rejection_reason with _ | rsn
    · rfl
    · dsimp only
      rw [if_neg (by simp)]
      split
      · rcases x.creator.email with _ | s
        · rfl
        · simp
      · rfl

theorem persist_step_AN (today : Nat) (r : DomainRequest) (u : ReasonUpdate)
    (h : r.status = Status.actionNeeded) :
    (persistReasonUpdate today r u).2 =
      emailsAN r.creator.email r._cached_action_needed_reason u ∧
    (persistReasonUpdate today r u).1.status = Status.actionNeeded ∧
    (persistReasonUpdate today r u).1._cached_action_needed_reason =
      u.reason ∧
    (persistReasonUpdate today r u).1.creator = r.creator := by
  have hap : applyReasonUpdate r u =
      { r with action_needed_reason := u.reason,
               action_needed_reason_email := u.email } := by
    unfold applyReasonUpdate
    rw [if_neg (by rw [h]; decide)]
  have hsv := save_eq r
    { r with action_needed_reason := u.reason,
             action_needed_reason_email := u.email } today rfl rfl rfl
  obtain ⟨p1, p2, p3, p4, p5, p6, p7, p8, p9, p10, p11, p12, p13, p14, p15⟩ :=
    saveResult_state_proj today
      { r with action_needed_reason := u.reason,
               action_needed_reason_email := u.email }
  unfold persistReasonUpdate
  rw [hap, hsv]
  refine ⟨?_, ?_, ?_, ?_⟩
  · exact saveResult_emails_AN today _ h
  · exact p1.trans h
  · exact p10
  · exact p4

theorem persist_step_REJ (today : Nat) (r : DomainRequest) (u : ReasonUpdate)
    (h : r.status = Status.rejected) :
    (persistReasonUpdate today r u).2 =
      emailsREJ r.creator.email r._cached_rejection_reason u ∧
    (persistReasonUpdate today r u).1.status = Status.rejected ∧
    (persistReasonUpdate today r u).1._cached_rejection_reason = u.reason ∧
    (persistReasonUpdate today r u).1.creator = r.creator := by
  have hap : applyReasonUpdate r u =
      { r with rejection_reason := u.reason,
               rejection_reason_email := u.email } := by
    unfold applyReasonUpdate
    rw [if_pos h]
  have hsv := save_eq r
    { r with rejection_reason := u.reason,
             rejection_reason_email := u.email } today rfl rfl rfl
  obtain ⟨p1, p2, p3, p4, p5, p6, p7, p8, p9, p10, p11, p12, p13, p14, p15⟩ :=
    saveResult_state_proj today
      { r with rejection_reason := u.reason,
               rejection_reason_email := u.email }
  unfold persistReasonUpdate
  rw [hap, hsv]
  refine ⟨?_, ?_, ?_, ?_⟩
  · exact saveResult_emails_REJ today _ h
  · exact p1.trans h
  · exact p11
  · exact p4

theorem approveFedStep_none (env : Env) (r : DomainRequest)
    (hfa : r.federal_agency = none) :
    approveFedStep env r =
      Except.ok (saveResult env.today
        { r with federal_agency := some "Non-Federal Agency" }) := by
  unfold approveFedStep
  rw [if_pos hfa]
  dsimp only
  rw [save_eq r { r with federal_agency := some "Non-Federal Agency" }
    env.today rfl rfl rfl]

theorem approveFedStep_some (env : Env) (r : DomainRequest)
    (hfa : r.federal_agency ≠ none) :
    approveFedStep env r = Except.ok (r, []) := by
  unfold approveFedStep
  rw [if_neg hfa]

/-! The claim theorems. -/

/-- C5: on a newly created record supplying both `organization_type` and
`generic_org_type`, the agreeing triple organization_type "tribal_election",
generic_org_type Tribal, is_election_board true must be accepted; evaluating
the `pre_save` receiver at exactly that input shows the save is instead
rejected with a `ValueError` (a `ReconciliationError`), because the source's
chained comparison makes any election-variant organization type fail the
match check. -/
theorem C5_new_record_agreeing_pair_rejected :
    create_or_update_organization_type true baseRequest
      newTribalElectionRequest =
    Except.error ("Cannot add organization_type and generic_org_type simultaneously when generic_org_type, is_election_board, and organization_type values do not match.") := by
  rfl

/-- C6: for every valid organization-type code, deriving the
generic/election pair with the inverse map and then deriving the
organization type back with the forward map yields the original code, and
the inverse map is defined on exactly the five election variants. -/
theorem C6_roundtrip (ot : String) (h : ot ∈ orgChoicesElectionOffice) :
    orgTypeRoundtrip baseRequest ot = some ot ∧
      ((get_org_election_to_org_generic.lookup ot).isSome ↔
        ot ∈ electionVariantCodes) := by
  fin_cases h <;> decide

/-- Witness for C6 at the election variant "tribal_election". -/
theorem C6_roundtrip_witness :
    orgTypeRoundtrip baseRequest "tribal_election" = some "tribal_election" ∧
      ((get_org_election_to_org_generic.lookup "tribal_election").isSome ↔
        "tribal_election" ∈ electionVariantCodes) :=
  C6_roundtrip "tribal_election" (by decide)

/-- C7: on an existing record, a save that changes `organization_type`
together with a change to `generic_org_type` or to `is_election_board` is
rejected with a `ValueError` (a `ReconciliationError`), and a save changing
neither side returns the instance unmodified. -/
theorem C7_ambiguous_update (current inst current2 inst2 : DomainRequest)
    (hot : inst.organization_type ≠ current.organization_type)
    (hpair : inst.generic_org_type ≠ current.generic_org_type ∨
      inst.is_election_board ≠ current.is_election_board)
    (h1 : inst2.generic_org_type = current2.generic_org_type)
    (h2 : inst2.is_election_board = current2.is_election_board)
    (h3 : inst2.organization_type = current2.organization_type) :
    create_or_update_organization_type false current inst =
      Except.error "Cannot update organization_type and generic_org_type simultaneously." ∧
    create_or_update_organization_type false current2 inst2 =
      Except.ok inst2 := by
  constructor
  · unfold create_or_update_organization_type
    rcases hpair with hp | hp
    · simp [hot, hp]
    · simp [hot, hp]
  · exact create_or_update_noop current2 inst2 h1 h2 h3

/-- C3: `submit` from a legal source status with a syntactically valid
requested domain succeeds, sets `first_submitted_date` to today exactly when
it was unset, always sets `last_submitted_date` to today, moves the status
to Submitted, and requests the submission-confirmation notification exactly
when the source status was Started or Withdrawn (given a creator with an
email address, so the notification can be addressed). -/
theorem C3_submit (env : Env) (r : DomainRequest) (d ce : String)
    (hs : r.status ∈ submitSources)
    (hd : r.requested_domain = some d)
    (hv : env.string_could_be_domain d = true)
    (he : r.creator.email = some ce) :
    (submit env r).err = none ∧
    (submit env r).state.status = Status.submitted ∧
    (submit env r).state.first_submitted_date =
      (if r.first_submitted_date = none then some env.today
        else r.first_submitted_date) ∧
    (submit env r).state.last_submitted_date = some env.today ∧
    (Email.submissionConfirmation ∈ (submit env r).emails ↔
      (r.status = Status.started ∨ r.status = Status.withdrawn)) := by
  obtain ⟨q1, q2, q3, q4, q5, q6, q7⟩ := submitDates_proj env.today r
  have hnot : ¬(r.status ∉ submitSources) := not_not_intro hs
  have hv' : ¬((!env.string_could_be_domain d) = true) := by
    rw [hv]
    simp
  obtain ⟨p1, p2, p3, p4, p5, p6, p7, p8, p9, p10, p11, p12, p13, p14, p15⟩ :=
    saveResult_state_proj env.today (submitDates env.today r)
  rcases hsr : saveResult env.today (submitDates env.today r) with ⟨r3, es⟩
  rw [hsr] at p1 p4 p5 p6
  have hnosub : Email.submissionConfirmation ∉ es := by
    have hn := saveResult_no_submission env.today (submitDates env.today r)
    rw [hsr] at hn
    exact hn
  have hconf : submit env r =
      ⟨{ r3 with status := Status.submitted },
        es ++ (if r3.status = Status.started ∨ r3.status = Status.withdrawn
          then _send_status_update_email r3 true Email.submissionConfirmation
          else []), none⟩ := by
    unfold submit
    rw [if_neg hnot]
    simp only [hd]
    rw [if_neg hv']
    rw [save_eq r (submitDates env.today r) env.today q1 q2 q3, hsr]
  rw [hconf]
  refine ⟨rfl, rfl, p5.trans q6, p6.trans q7, ?_⟩
  constructor
  · intro hm
    rcases List.mem_append.mp hm with h1 | h2
    · exact absurd h1 hnosub
    · by_cases hc : r3.status = Status.started ∨ r3.status = Status.withdrawn
      · rw [← q4, ← p1]
        exact hc
      · rw [if_neg hc] at h2
        simp at h2
  · intro hc
    have hc3 : r3.status = Status.started ∨ r3.status = Status.withdrawn := by
      rw [p1, q4]
      exact hc
    apply List.mem_append.mpr
    right
    rw [if_pos hc3]
    unfold _send_status_update_email
    have hce : r3.creator.email = some ce := by
      rw [p4, q5]
      exact he
    rw [hce]
    simp

/-- Witness for C3: a started request with requested domain "city.gov"
submits successfully, stamps both dates and requests exactly one
submission-confirmation notification. -/
theorem C3_submit_witness :
    (submit envOk startedRequest).err = none ∧
    (submit envOk startedRequest).state.status = Status.submitted ∧
    (submit envOk startedRequest).state.first_submitted_date =
      (if startedRequest.first_submitted_date = none then some envOk.today
        else startedRequest.first_submitted_date) ∧
    (submit envOk startedRequest).state.last_submitted_date =
      some envOk.today ∧
    (Email.submissionConfirmation ∈ (submit envOk startedRequest).emails ↔
      (startedRequest.status = Status.started ∨
        startedRequest.status = Status.withdrawn)) :=
  C3_submit envOk startedRequest "city.gov" "creator@example.gov"
    (by decide) rfl rfl rfl

/-- Counterexample for C2: `approve` on a Submitted request with a staff
investigator, no federal agency, and a requested name that already exists as
a `Domain` raises `APPROVE_DOMAIN_IN_USE` — but does NOT leave every field
unchanged: `federal_agency` has been defaulted to "Non-Federal Agency" (and
saved) before the name-in-use check. -/
theorem C2_counterexample :
    (approve envInUse true submittedNoAgencyRequest).err =
      some WorkflowError.approveDomainInUse ∧
    (approve envInUse true submittedNoAgencyRequest).state ≠
      submittedNoAgencyRequest ∧
    (approve envInUse true submittedNoAgencyRequest).state.federal_agency =
      some "Non-Federal Agency" ∧
    submittedNoAgencyRequest.federal_agency = none := by
  decide

/-- C2 (amended): a transition whose guard fails signals a `WorkflowError`
and leaves the request unmodified, and `approve` on a request whose
requested name already exists as a `Domain` fails with
`APPROVE_DOMAIN_IN_USE` leaving the STATUS unchanged; but the request is
left fully unmodified only when `federal_agency` was already set — when it
was unset, it has been defaulted to "Non-Federal Agency" and saved before
the check raises. -/
theorem C2_amended (env : Env) (se : Bool) (rg r : DomainRequest) (d : String)
    (hguard : rg.status ∉ approveSources ∨
      investigator_exists_and_is_staff rg = false)
    (hsrc : r.status ∈ approveSources)
    (hinv : investigator_exists_and_is_staff r = true)
    (hd : r.requested_domain = some d)
    (hex : env.domain_exists d = true) :
    approve env se rg = ⟨rg, [], some WorkflowError.transitionNotAllowed⟩ ∧
    (approve env se r).err = some WorkflowError.approveDomainInUse ∧
    (approve env se r).state.status = r.status ∧
    (r.federal_agency ≠ none →
      approve env se r = ⟨r, [], some WorkflowError.approveDomainInUse⟩) ∧
    (r.federal_agency = none →
      (approve env se r).state.federal_agency =
        some "Non-Federal Agency") := by
  have hnot : ¬(r.status ∉ approveSources) := not_not_intro hsrc
  have hinv' : ¬((!investigator_exists_and_is_staff r) = true) := by
    rw [hinv]
    simp
  have part1 : approve env se rg =
      ⟨rg, [], some WorkflowError.transitionNotAllowed⟩ := by
    by_cases hmem : rg.status ∉ approveSources
    · unfold approve
      rw [if_pos hmem]
    · have hb := hguard.resolve_left hmem
      unfold approve
      rw [if_neg hmem, if_pos (by rw [hb]; rfl)]
  refine ⟨part1, ?_⟩
  by_cases hfa : r.federal_agency = none
  · obtain ⟨p1, p2, p3, -⟩ := saveResult_state_proj env.today
      { r with federal_agency := some "Non-Federal Agency" }
    rcases hsr : saveResult env.today
        { r with federal_agency := some "Non-Federal Agency" } with ⟨r2, es⟩
    rw [hsr] at p1 p2 p3
    have happ : approve env se r =
        ⟨r2, es, some WorkflowError.approveDomainInUse⟩ := by
      unfold approve
      rw [if_neg hnot, if_neg hinv', approveFedStep_none env r hfa, hsr]
      have hrd : r2.requested_domain = some d := by
        rw [p2]
        exact hd
      simp [hrd, hex]
    refine ⟨?_, ?_, ?_, ?_⟩
    · rw [happ]
    · rw [happ]
      exact p1
    · intro h4
      exact absurd hfa h4
    · intro _
      rw [happ]
      exact p3
  · have happ : approve env se r =
        ⟨r, [], some WorkflowError.approveDomainInUse⟩ := by
      unfold approve
      rw [if_neg hnot, if_neg hinv', approveFedStep_some env r hfa]
      simp [hd, hex]
    exact ⟨by rw [happ], by rw [happ], fun _ => happ,
      fun h5 => absurd h5 hfa⟩

/-- Witness for C2 (amended): concrete guard failure on a Withdrawn request
and a concrete name-in-use failure on a Submitted request. -/
theorem C2_amended_witness :
    approve envInUse true withdrawnRequest =
      ⟨withdrawnRequest, [], some WorkflowError.transitionNotAllowed⟩ ∧
    (approve envInUse true submittedNoAgencyRequest).err =
      some WorkflowError.approveDomainInUse ∧
    (approve envInUse true submittedNoAgencyRequest).state.status =
      submittedNoAgencyRequest.status ∧
    (submittedNoAgencyRequest.federal_agency ≠ none →
      approve envInUse true submittedNoAgencyRequest =
        ⟨submittedNoAgencyRequest, [],
          some WorkflowError.approveDomainInUse⟩) ∧
    (submittedNoAgencyRequest.federal_agency = none →
      (approve envInUse true submittedNoAgencyRequest).state.federal_agency =
        some "Non-Federal Agency") :=
  C2_amended envInUse true withdrawnRequest submittedNoAgencyRequest
    "city.gov" (Or.inl (by decide)) (by decide) (by decide) rfl rfl

/-- Counterexample for C9: a school-district request whose `address_line1`,
`city`, `state_territory` and `zipcode` are all unset but whose
`organization_name` is set evaluates as COMPLETE — `_form_complete` returns
true — so "for every request in which any of organization name, address
line 1, city, state/territory or zip code is unset, isComplete returns
false" is false on the code. -/
theorem C9_counterexample :
    nameOnlyCompleteRequest.address_line1 = none ∧
    nameOnlyCompleteRequest.city = none ∧
    nameOnlyCompleteRequest.state_territory = none ∧
    nameOnlyCompleteRequest.zipcode = none ∧
    _form_complete nameOnlyCompleteRequest () = true := by
  decide

/-- C9 (amended): the organization name-and-address section counts as
incomplete only when ALL FIVE of organization name, address line 1, city,
state/territory and zip code are unset — one set field suffices — and when
all five are unset, `_form_complete` returns false. -/
theorem C9_amended (r r2 : DomainRequest) (u : Unit)
    (h1 : r.organization_name = none) (h2 : r.address_line1 = none)
    (h3 : r.city = none) (h4 : r.state_territory = none)
    (h5 : r.zipcode = none) :
    _form_complete r u = false ∧
    (_is_organization_name_and_address_complete r2 = false ↔
      (r2.organization_name = none ∧ r2.address_line1 = none ∧
        r2.city = none ∧ r2.state_territory = none ∧
        r2.zipcode = none)) := by
  constructor
  · unfold _form_complete _is_general_form_complete
      _is_organization_name_and_address_complete
    simp [h1, h2, h3, h4, h5]
  · unfold _is_organization_name_and_address_complete
    simp

/-- Witness for C9 (amended): the empty base request has no name or address
data and is incomplete. -/
theorem C9_amended_witness :
    _form_complete baseRequest () = false ∧
    (_is_organization_name_and_address_complete baseRequest = false ↔
      (baseRequest.organization_name = none ∧
        baseRequest.address_line1 = none ∧ baseRequest.city = none ∧
        baseRequest.state_territory = none ∧
        baseRequest.zipcode = none)) :=
  C9_amended baseRequest baseRequest () rfl rfl rfl rfl rfl

/-- C10: every successful `save` leaves the tri-state completion flags
consistent with their text fields: whenever `anything_else` is non-null,
`has_anything_else_text` says exactly whether it is a non-empty string, and
whenever `has_cisa_representative` is non-null it equals "both CISA
representative names are non-null and non-empty". -/
theorem C10_flags_synced (current r r2 : DomainRequest) (today : Nat)
    (es : List Email)
    (h : save current today r = Except.ok (r2, es)) :
    (∀ s, r2.anything_else = some s →
      r2.has_anything_else_text = some (decide (s ≠ ""))) ∧
    (∀ b, r2.has_cisa_representative = some b →
      b = (filledStr r2.cisa_representative_first_name &&
        filledStr r2.cisa_representative_last_name)) := by
  unfold save at h
  cases hs1 : sync_organization_type false current r with
  | error m =>
    rw [hs1] at h
    exact Except.noConfusion h
  | ok ra =>
    rw [hs1] at h
    simp only [except_bind_ok] at h
    cases hs2 : create_or_update_organization_type false current
        (stampStatusUpdate today (sync_yes_no_form_fields ra)) with
    | error m =>
      rw [hs2] at h
      exact Except.noConfusion h
    | ok rd =>
      rw [hs2] at h
      simp only [except_bind_ok] at h
      have hpair : _cache_status_and_status_reasons rd = r2 := by
        simp only [pure, Except.pure, Except.ok.injEq,
          Prod.mk.injEq] at h
        exact h.1
      obtain ⟨c1, c2, c3, c4, c5⟩ := create_or_update_ok_c10 current
        (stampStatusUpdate today (sync_yes_no_form_fields ra)) rd hs2
      obtain ⟨i1, i2⟩ := sync_yes_no_invariant ra
      have hy1 : (stampStatusUpdate today
          (sync_yes_no_form_fields ra)).anything_else =
          (sync_yes_no_form_fields ra).anything_else := by
        unfold stampStatusUpdate
        split <;> rfl
      have hy2 : (stampStatusUpdate today
          (sync_yes_no_form_fields ra)).has_anything_else_text =
          (sync_yes_no_form_fields ra).has_anything_else_text := by
        unfold stampStatusUpdate
        split <;> rfl
      have hy3 : (stampStatusUpdate today
          (sync_yes_no_form_fields ra)).cisa_representative_first_name =
          (sync_yes_no_form_fields ra).cisa_representative_first_name := by
        unfold stampStatusUpdate
        split <;> rfl
      have hy4 : (stampStatusUpdate today
          (sync_yes_no_form_fields ra)).cisa_representative_last_name =
          (sync_yes_no_form_fields ra).cisa_representative_last_name := by
        unfold stampStatusUpdate
        split <;> rfl
      have hy5 : (stampStatusUpdate today
          (sync_yes_no_form_fields ra)).has_cisa_representative =
          (sync_yes_no_form_fields ra).has_cisa_representative := by
        unfold stampStatusUpdate
        split <;> rfl
      have hz1 : r2.anything_else = (sync_yes_no_form_fields
          ra).anything_else := by
        rw [← hpair]
        exact c1.trans hy1
      have hz2 : r2.has_anything_else_text = (sync_yes_no_form_fields
          ra).has_anything_else_text := by
        rw [← hpair]
        exact c2.trans hy2
      have hz3 : r2.cisa_representative_first_name =
          (sync_yes_no_form_fields ra).cisa_representative_first_name := by
        rw [← hpair]
        exact c3.trans hy3
      have hz4 : r2.cisa_representative_last_name =
          (sync_yes_no_form_fields ra).cisa_representative_last_name := by
        rw [← hpair]
        exact c4.trans hy4
      have hz5 : r2.has_cisa_representative =
          (sync_yes_no_form_fields ra).has_cisa_representative := by
        rw [← hpair]
        exact c5.trans hy5
      constructor
      · intro s hs
        rw [hz2]
        exact i1 s (hz1 ▸ hs)
      · intro b hb
        rw [hz3, hz4]
        exact i2 b (hz5 ▸ hb)

/-- Witness for C10: a concrete save of a request whose `anything_else`
holds text and whose flags are stale resynchronizes the flags. -/
theorem C10_flags_synced_witness :
    (saveResult 0 staleFlagsRequest).1.has_anything_else_text =
      some (decide ("Extra context" ≠ "")) ∧
    false = (filledStr
        (saveResult 0 staleFlagsRequest).1.cisa_representative_first_name &&
      filledStr
        (saveResult 0 staleFlagsRequest).1.cisa_representative_last_name)
    := by
  have h := C10_flags_synced staleFlagsRequest staleFlagsRequest
    (saveResult 0 staleFlagsRequest).1 0 (saveResult 0 staleFlagsRequest).2
    (by rw [save_eq staleFlagsRequest staleFlagsRequest 0 rfl rfl rfl])
  exact ⟨h.1 "Extra context" (by decide), h.2 false (by decide)⟩

/-- Counterexample for C4: persisting an ActionNeeded request with reason
"bad_name", then "eligibility_unclear", then "bad_name" again (each with an
email body) attempts THREE notifications, two of them for the reason
"bad_name" — the dedup compares only against the previous persisted value,
so "at most once per reason value per status" is false. -/
theorem C4_counterexample :
    countReason (runSaves 0 actionNeededRequest reasonABAUpdates).2
      "bad_name" = 2 ∧
    (runSaves 0 actionNeededRequest reasonABAUpdates).2 =
      [Email.customStatus Status.actionNeeded "bad_name" "body one",
       Email.customStatus Status.actionNeeded "eligibility_unclear"
         "body two",
       Email.customStatus Status.actionNeeded "bad_name" "body three"] := by
  decide

/-- C4 (amended): the custom status notification is deduplicated against the
PREVIOUS persisted reason only: persisting the same non-null reason twice in
a row sends exactly one notification, persisting reason A then reason B
sends one per reason with the matching body, and nothing is sent when the
email body is absent, the reason is null, or the reason is excluded for the
status ("other" for ActionNeeded; Rejected excludes nothing). A reason may
be re-notified when a different reason was persisted in between. -/
theorem C4_amended (today : Nat) (r rr : DomainRequest)
    (A B e e2 ce ce2 : String)
    (hA : r.status = Status.actionNeeded)
    (hcA : r._cached_action_needed_reason = none)
    (hce : r.creator.email = some ce)
    (hAo : A ≠ "other") (hBo : B ≠ "other") (hAB : A ≠ B)
    (hR : rr.status = Status.rejected)
    (hcR : rr._cached_rejection_reason = none)
    (hce2 : rr.creator.email = some ce2) :
    (runSaves today r [⟨some A, some e⟩, ⟨some A, some e2⟩]).2 =
      [Email.customStatus Status.actionNeeded A e] ∧
    (runSaves today r [⟨some A, some e⟩, ⟨some B, some e2⟩]).2 =
      [Email.customStatus Status.actionNeeded A e,
       Email.customStatus Status.actionNeeded B e2] ∧
    (runSaves today r [⟨none, some e⟩]).2 = [] ∧
    (runSaves today r [⟨some A, none⟩]).2 = [] ∧
    (runSaves today r [⟨some "other", some e⟩]).2 = [] ∧
    (runSaves today rr [⟨some A, some e⟩, ⟨some A, some e2⟩]).2 =
      [Email.customStatus Status.rejected A e] ∧
    (runSaves today rr [⟨some "other", some e⟩]).2 =
      [Email.customStatus Status.rejected "other" e] := by
  obtain ⟨a1, a2, a3, a4⟩ := persist_step_AN today r ⟨some A, some e⟩ hA
  obtain ⟨b1, b2, b3, b4⟩ := persist_step_AN today
    (persistReasonUpdate today r ⟨some A, some e⟩).1 ⟨some A, some e2⟩ a2
  obtain ⟨c1, c2, c3, c4⟩ := persist_step_AN today
    (persistReasonUpdate today r ⟨some A, some e⟩).1 ⟨some B, some e2⟩ a2
  obtain ⟨d1, d2, d3, d4⟩ := persist_step_AN today r ⟨none, some e⟩ hA
  obtain ⟨f1, f2, f3, f4⟩ := persist_step_AN today r ⟨some A, none⟩ hA
  obtain ⟨g1, g2, g3, g4⟩ := persist_step_AN today r
    ⟨some "other", some e⟩ hA
  obtain ⟨j1, j2, j3, j4⟩ := persist_step_REJ today rr ⟨some A, some e⟩ hR
  obtain ⟨k1, k2, k3, k4⟩ := persist_step_REJ today
    (persistReasonUpdate today rr ⟨some A, some e⟩).1 ⟨some A, some e2⟩ j2
  obtain ⟨l1, l2, l3, l4⟩ := persist_step_REJ today rr
    ⟨some "other", some e⟩ hR
  rw [a4, a3] at b1 c1
  rw [j4, j3] at k1
  rw [hce] at a1 b1 c1 d1 f1 g1
  rw [hce2] at j1 k1 l1
  rw [hcA] at a1 d1 f1 g1
  rw [hcR] at j1 l1
  refine ⟨?_, ?_, ?_, ?_, ?_, ?_, ?_⟩
  · simp only [runSaves]
    rw [a1, b1]
    simp [emailsAN, hAo]
  · simp only [runSaves]
    rw [a1, c1]
    simp [emailsAN, hAo, hBo, hAB]
  · simp only [runSaves]
    rw [d1]
    simp [emailsAN]
  · simp only [runSaves]
    rw [f1]
    simp [emailsAN]
  · simp only [runSaves]
    rw [g1]
    simp [emailsAN]
  · simp only [runSaves]
    rw [j1, k1]
    simp [emailsREJ]
  · simp only [runSaves]
    rw [l1]
    simp [emailsREJ]

/-- Witness for C4 (amended) at concrete reasons "bad_name" and
"eligibility_unclear" on concrete ActionNeeded and Rejected requests. -/
theorem C4_amended_witness :
    (runSaves 0 actionNeededRequest
      [⟨some "bad_name", some "body one"⟩,
       ⟨some "bad_name", some "body two"⟩]).2 =
      [Email.customStatus Status.actionNeeded "bad_name" "body one"] ∧
    (runSaves 0 actionNeededRequest
      [⟨some "bad_name", some "body one"⟩,
       ⟨some "eligibility_unclear", some "body two"⟩]).2 =
      [Email.customStatus Status.actionNeeded "bad_name" "body one",
       Email.customStatus Status.actionNeeded "eligibility_unclear"
         "body two"] ∧
    (runSaves 0 actionNeededRequest [⟨none, some "body one"⟩]).2 = [] ∧
    (runSaves 0 actionNeededRequest [⟨some "bad_name", none⟩]).2 = [] ∧
    (runSaves 0 actionNeededRequest
      [⟨some "other", some "body one"⟩]).2 = [] ∧
    (runSaves 0 rejectedRequest
      [⟨some "bad_name", some "body one"⟩,
       ⟨some "bad_name", some "body two"⟩]).2 =
      [Email.customStatus Status.rejected "bad_name" "body one"] ∧
    (runSaves 0 rejectedRequest [⟨some "other", some "body one"⟩]).2 =
      [Email.customStatus Status.rejected "other" "body one"] :=
  C4_amended 0 actionNeededRequest rejectedRequest "bad_name"
    "eligibility_unclear" "body one" "body two" "creator@example.gov"
    "creator@example.gov" rfl rfl rfl (by decide) (by decide) (by decide)
    rfl rfl rfl

/-- C8: status transitions only follow the transition table; in particular
`submit` invoked on an Approved request and `approve` invoked on a Withdrawn
request both fail with `TransitionNotAllowed` (the `InvalidTransition` error)
and leave the request unchanged. -/
theorem C8_invalid_transitions (env : Env) (se : Bool) (r1 r2 : DomainRequest)
    (h1 : r1.status = Status.approved) (h2 : r2.status = Status.withdrawn) :
    submit env r1 = ⟨r1, [], some WorkflowError.transitionNotAllowed⟩ ∧
    approve env se r2 = ⟨r2, [], some WorkflowError.transitionNotAllowed⟩ := by
  have m1 : r1.status ∉ submitSources := by rw [h1]; decide
  have m2 : r2.status ∉ approveSources := by rw [h2]; decide
  constructor
  · unfold submit
    rw [if_pos m1]
  · unfold approve
    rw [if_pos m2]

/-- Witness for C8: an Approved request cannot be submitted and a Withdrawn
request cannot be approved. -/
theorem C8_invalid_transitions_witness :
    submit envOk approvedDnsNeededRequest =
      ⟨approvedDnsNeededRequest, [], some WorkflowError.transitionNotAllowed⟩ ∧
    approve envOk true withdrawnRequest =
      ⟨withdrawnRequest, [], some WorkflowError.transitionNotAllowed⟩ :=
  C8_invalid_transitions envOk true approvedDnsNeededRequest withdrawnRequest
    rfl rfl

/-- Counterexample for C1: an `in_review` invoked on an Approved request
whose registry deletion raises SUCCEEDS (the cleanup failure is swallowed)
yet leaves `approved_domain` non-null, so the claim that `approvedDomain` is
null after any successful transition whose source is Approved is false. -/
theorem C1_counterexample :
    (in_review envRaise approvedDnsNeededRequest).err = none ∧
    approvedDnsNeededRequest.status = Status.approved ∧
    (in_review envRaise approvedDnsNeededRequest).state.status =
      Status.inReview ∧
    (in_review envRaise approvedDnsNeededRequest).state.approved_domain ≠
      none := by
  decide

/-- C1 (amended): after a successful `approve`, `approved_domain` is non-null
and the status is Approved; and after any successful transition whose source
is Approved (`in_review`, `action_needed`, `reject`,
`reject_with_prejudice`), `approved_domain` is null PROVIDED the best-effort
registry deletion did not raise; a swallowed cleanup failure leaves
`approved_domain` set while the transition still succeeds. -/
theorem C1_amended (env : Env) (se : Bool) (r : DomainRequest)
    (hraise : env.epp_delete_raises = false) :
    ((approve env se r).err = none →
      (approve env se r).state.approved_domain ≠ none ∧
      (approve env se r).state.status = Status.approved) ∧
    (r.status = Status.approved →
      ((in_review env r).err = none →
        (in_review env r).state.approved_domain = none) ∧
      ((action_needed env r).err = none →
        (action_needed env r).state.approved_domain = none) ∧
      ((reject env r).err = none →
        (reject env r).state.approved_domain = none) ∧
      ((reject_with_prejudice env r).err = none →
        (reject_with_prejudice env r).state.approved_domain = none)) := by
  constructor
  · intro hok
    obtain ⟨t, ht⟩ : ∃ t : TRes, approve env se r = t := ⟨_, rfl⟩
    rw [ht] at hok ⊢
    unfold approve at ht
    repeat' split at ht
    all_goals rw [← ht] at hok ⊢
    all_goals first
      | exact ⟨by dsimp only; repeat' split; all_goals simp, by rfl⟩
      | exact absurd hok (by simp)
  · intro hA
    refine ⟨?_, ?_, ?_, ?_⟩
    · unfold in_review
      split
      · simp
      · split
        · simp
        · intro _
          simp [hA, cleanup_clears env r hraise]
    · unfold action_needed
      split
      · simp
      · split
        · simp
        · intro _
          simp [hA, cleanup_clears env r hraise]
    · unfold reject
      split
      · simp
      · split
        · simp
        · intro _
          simp [hA, cleanup_clears env r hraise]
    · unfold reject_with_prejudice
      split
      · simp
      · split
        · simp
        · intro _
          simp [hA, cleanup_clears env r hraise]

/-- Witness for C1 (amended): a successful `approve` of a Submitted request
yields a non-null approved domain in status Approved, and a successful
`in_review` of an Approved request with a working registry clears it. -/
theorem C1_amended_witness :
    ((approve envOk true submittedNoAgencyRequest).state.approved_domain ≠
        none ∧
      (approve envOk true submittedNoAgencyRequest).state.status =
        Status.approved) ∧
    (in_review envOk approvedDnsNeededRequest).state.approved_domain =
      none := by
  have h := C1_amended envOk true submittedNoAgencyRequest rfl
  have h2 := C1_amended envOk true approvedDnsNeededRequest rfl
  exact ⟨h.1 (by decide), (h2.2 rfl).1 (by decide)⟩

/-- Witness for C7: changing `organization_type` from "county" to
"county_election" while also flipping `is_election_board` in the same save is
rejected, and the untouched base record saves as a no-op. -/
theorem C7_ambiguous_update_witness :
    create_or_update_organization_type false countyCurrent
      countyElectionInst =
      Except.error "Cannot update organization_type and generic_org_type simultaneously." ∧
    create_or_update_organization_type false baseRequest baseRequest =
      Except.ok baseRequest :=
  C7_ambiguous_update countyCurrent countyElectionInst baseRequest baseRequest
    (by decide) (by decide) rfl rfl rfl

end Registrar
